import Mathlib

/-!
# Verification of the Persona-Forge tool-dispatch core

Shallow embedding of the tool-intent registry (`src/tools/tool_registry.py`),
the JSON parameter extraction (`src/tools/param_extractor_tool.py`), the
execution tracker (`src/utils/tool_tracker.py`), the script content tool
(`src/tools/script_tool.py`), the streaming retry loop of
`LLMManager.generate_response` (`src/model/llm_config.py`), and the user
profile accumulator (`src/tools/preference_tool.py`).

Python exceptions are modelled with `Except String`: a raised exception is
`Except.error msg` where `msg` is `str(e)`. Fallible collaborator calls
(`param_extractor`, `tool_func`, `llm.invoke`) are embedded as functions
returning `Except String _`.
-/

namespace PersonaForge

/-! ## Tool-intent registry (`tool_registry.py`)

`ToolIntent` binds a name, keyword list, parameter extractor and tool
function.  Parameter and result values are opaque to the registry, so they
are type parameters `P` and `R` here. -/

/-- Python `kw in user_input`: substring containment on the character
sequences. -/
def strContains (hay needle : String) : Bool :=
  decide (needle.toList <:+: hay.toList)

/-- `ToolIntent` from `tool_registry.py`: name, keywords, `param_extractor`
(may raise), `tool_func` (may raise), description. -/
structure ToolIntent (P R : Type) where
  name : String
  keywords : List String
  param_extractor : String → Except String P
  tool_func : P → Except String R
  description : String

/-- `ToolIntent.match`: `any(kw in user_input for kw in self.keywords)`. -/
def ToolIntent.matches {P R : Type} (i : ToolIntent P R) (user_input : String) : Bool :=
  i.keywords.any (fun kw => strContains user_input kw)

/-- One summary record appended by `detect_and_run`: the dict
`{intent, params, result | error, status, description}`.  `status` is the
Python string `"success"` or `"fail"`. -/
structure TraceSummary (P R : Type) where
  intent : String
  params : P
  result : Option R
  error : Option String
  status : String
  description : String

/-- The body of `detect_and_run` for one matching intent: extraction happens
OUTSIDE the `try`, so an extractor exception propagates; only `intent.call`
is inside the `try`, its exception becoming a `"fail"` summary. -/
def runIntent {P R : Type} (i : ToolIntent P R) (user_input : String) :
    Except String (TraceSummary P R) :=
  match i.param_extractor user_input with
  | Except.error e => Except.error e
  | Except.ok params =>
    match i.tool_func params with
    | Except.ok result =>
      Except.ok { intent := i.name, params := params, result := some result,
                  error := none, status := "success", description := i.description }
    | Except.error e =>
      Except.ok { intent := i.name, params := params, result := none,
                  error := some e, status := "fail", description := i.description }

/-- The loop of `ToolIntentRegistry.detect_and_run` over the intent list: for
each matching intent run extraction + invocation; an uncaught (extractor)
exception aborts the whole loop. -/
def detectAndRunList {P R : Type} : List (ToolIntent P R) → String →
    Except String (List (TraceSummary P R))
  | [], _ => Except.ok []
  | i :: rest, user_input =>
    if i.matches user_input then
      match runIntent i user_input with
      | Except.error e => Except.error e
      | Except.ok s =>
        match detectAndRunList rest user_input with
        | Except.error e => Except.error e
        | Except.ok l => Except.ok (s :: l)
    else
      detectAndRunList rest user_input

/-- `ToolIntentRegistry`: holds the ordered intent list. -/
structure ToolIntentRegistry (P R : Type) where
  intents : List (ToolIntent P R)

/-- `register` appends to the ordered list. -/
def ToolIntentRegistry.register {P R : Type} (reg : ToolIntentRegistry P R)
    (i : ToolIntent P R) : ToolIntentRegistry P R :=
  { intents := reg.intents ++ [i] }

/-- `detect_and_run` on the registry. -/
def ToolIntentRegistry.detect_and_run {P R : Type} (reg : ToolIntentRegistry P R)
    (user_input : String) : Except String (List (TraceSummary P R)) :=
  detectAndRunList reg.intents user_input

/-! ## JSON model and `ParamExtractor._extract_json` (`param_extractor_tool.py`)

Python JSON values.  The `json.loads` model below covers objects, arrays,
strings (with the standard escapes), integers, booleans and `null`.  Two
deliberate deviations, on which no claim depends: floating-point literals are
rejected (floats are outside the embedding), and duplicate object keys are
kept in order instead of last-write-wins. -/

inductive JsonValue : Type where
  | null : JsonValue
  | bool (b : Bool) : JsonValue
  | num (n : Int) : JsonValue
  | str (s : String) : JsonValue
  | arr (elems : List JsonValue) : JsonValue
  | obj (fields : List (String × JsonValue)) : JsonValue

/-- JSON whitespace accepted between tokens by `json.loads`. -/
def isJsonWs (c : Char) : Bool :=
  c == ' ' || c == '\t' || c == '\n' || c == '\r'

/-- Skip inter-token whitespace. -/
def skipWs (cs : List Char) : List Char :=
  cs.dropWhile isJsonWs

/-- Value of a hexadecimal digit. -/
def hexVal (c : Char) : Option Nat :=
  if 48 ≤ c.toNat ∧ c.toNat ≤ 57 then some (c.toNat - 48)
  else if 97 ≤ c.toNat ∧ c.toNat ≤ 102 then some (c.toNat - 97 + 10)
  else if 65 ≤ c.toNat ∧ c.toNat ≤ 70 then some (c.toNat - 65 + 10)
  else none

/-- Single-character JSON string escapes (the code point each escape letter
denotes). -/
def escChar : Char → Option Char
  | '"' => some '"'
  | '\\' => some '\\'
  | '/' => some '/'
  | 'b' => some (Char.ofNat 8)
  | 'f' => some (Char.ofNat 12)
  | 'n' => some (Char.ofNat 10)
  | 'r' => some (Char.ofNat 13)
  | 't' => some (Char.ofNat 9)
  | _ => none

/-- Parse the body of a JSON string literal (the opening quote already
consumed); returns the decoded characters and the input after the closing
quote.  Unescaped control characters are rejected, as by strict
`json.loads`. -/
def parseJStrAux : List Char → Option (List Char × List Char)
  | [] => none
  | '"' :: rest => some ([], rest)
  | '\\' :: 'u' :: h1 :: h2 :: h3 :: h4 :: rest =>
    match hexVal h1, hexVal h2, hexVal h3, hexVal h4 with
    | some a, some b, some c, some d =>
      match parseJStrAux rest with
      | some (s, r) => some (Char.ofNat (((a * 16 + b) * 16 + c) * 16 + d) :: s, r)
      | none => none
    | _, _, _, _ => none
  | '\\' :: e :: rest =>
    match escChar e with
    | some ec =>
      match parseJStrAux rest with
      | some (s, r) => some (ec :: s, r)
      | none => none
    | none => none
  | c :: rest =>
    if c.toNat < 32 then none
    else
      match parseJStrAux rest with
      | some (s, r) => some (c :: s, r)
      | none => none

/-- Value of a decimal digit. -/
def digitVal (c : Char) : Option Nat :=
  if 48 ≤ c.toNat ∧ c.toNat ≤ 57 then some (c.toNat - 48) else none

/-- Split off the maximal run of leading decimal digits. -/
def takeDigits : List Char → List Nat × List Char
  | [] => ([], [])
  | c :: rest =>
    match digitVal c with
    | some d =>
      let (ds, r) := takeDigits rest
      (d :: ds, r)
    | none => ([], c :: rest)

/-- Decimal value of a digit run. -/
def natOfDigits (ds : List Nat) : Nat :=
  ds.foldl (fun acc d => acc * 10 + d) 0

/-- Parse a JSON integer literal (optional minus, no leading zeros); a
fractional part or exponent makes the parse fail (floats are outside the
model). -/
def parseJInt (cs : List Char) : Option (Int × List Char) :=
  let (neg, cs1) :=
    match cs with
    | '-' :: rest => (true, rest)
    | _ => (false, cs)
  match takeDigits cs1 with
  | ([], _) => none
  | (d :: ds, rest) =>
    if d == 0 ∧ ds ≠ [] then none
    else
      match rest with
      | '.' :: _ => none
      | 'e' :: _ => none
      | 'E' :: _ => none
      | _ =>
        let n : Int := Int.ofNat (natOfDigits (d :: ds))
        some (if neg then -n else n, rest)

mutual

/-- Parse one JSON value, fuel-bounded; returns the value and the remaining
input. -/
def parseValue : Nat → List Char → Option (JsonValue × List Char)
  | 0, _ => none
  | Nat.succ fuel, cs =>
    match skipWs cs with
    | [] => none
    | c :: rest =>
      if c == '\x7b' then
        match skipWs rest with
        | '\x7d' :: r => some (JsonValue.obj [], r)
        | cs2 =>
          match parseMembers fuel cs2 with
          | some (fields, r) => some (JsonValue.obj fields, r)
          | none => none
      else if c == '[' then
        match skipWs rest with
        | ']' :: r => some (JsonValue.arr [], r)
        | cs2 =>
          match parseElems fuel cs2 with
          | some (vs, r) => some (JsonValue.arr vs, r)
          | none => none
      else if c == '"' then
        match parseJStrAux rest with
        | some (s, r) => some (JsonValue.str (String.mk s), r)
        | none => none
      else
        match c :: rest with
        | 'n' :: 'u' :: 'l' :: 'l' :: r => some (JsonValue.null, r)
        | 't' :: 'r' :: 'u' :: 'e' :: r => some (JsonValue.bool true, r)
        | 'f' :: 'a' :: 'l' :: 's' :: 'e' :: r => some (JsonValue.bool false, r)
        | cs2 =>
          match parseJInt cs2 with
          | some (n, r) => some (JsonValue.num n, r)
          | none => none

/-- Parse the members of a JSON object (at least one), input ws-skipped. -/
def parseMembers : Nat → List Char → Option (List (String × JsonValue) × List Char)
  | 0, _ => none
  | Nat.succ fuel, cs =>
    match cs with
    | '"' :: rest =>
      match parseJStrAux rest with
      | some (k, r1) =>
        match skipWs r1 with
        | ':' :: r2 =>
          match parseValue fuel r2 with
          | some (v, r3) =>
            match skipWs r3 with
            | ',' :: r4 =>
              match parseMembers fuel (skipWs r4) with
              | some (fields, r5) => some ((String.mk k, v) :: fields, r5)
              | none => none
            | '\x7d' :: r4 => some ([(String.mk k, v)], r4)
            | _ => none
          | none => none
        | _ => none
      | none => none
    | _ => none

/-- Parse the elements of a JSON array (at least one). -/
def parseElems : Nat → List Char → Option (List JsonValue × List Char)
  | 0, _ => none
  | Nat.succ fuel, cs =>
    match parseValue fuel cs with
    | some (v, r1) =>
      match skipWs r1 with
      | ',' :: r2 =>
        match parseElems fuel r2 with
        | some (vs, r3) => some (v :: vs, r3)
        | none => none
      | ']' :: r2 => some ([v], r2)
      | _ => none
    | none => none

end

/-- Model of Python `json.loads`: parse one value, then require only
whitespace to follow (otherwise `Extra data` is raised, modelled as `none`). -/
def jsonLoads (s : String) : Option JsonValue :=
  let cs := s.toList
  match parseValue (2 * cs.length + 4) cs with
  | some (v, rest) => if skipWs rest = [] then some v else none
  | none => none

/-- Index of the first occurrence of `c` in `cs`. -/
def firstIdxOf (c : Char) (cs : List Char) : Option Nat :=
  cs.findIdx? (fun x => x == c)

/-- Index of the last occurrence of `c` in `cs`. -/
def lastIdxOf (c : Char) (cs : List Char) : Option Nat :=
  match cs.reverse.findIdx? (fun x => x == c) with
  | some k => some (cs.length - 1 - k)
  | none => none

/-- The match of `re.search(r'\x7b[\s\S]*\x7d', text)`: the leftmost-greedy
match runs from the first `{` to the last `}` of the text, provided the
latter comes after the former; otherwise there is no match. -/
def regexSpan (text : String) : Option String :=
  let cs := text.toList
  match firstIdxOf '\x7b' cs, lastIdxOf '\x7d' cs with
  | some i, some j =>
    if i < j then some (String.mk ((cs.drop i).take (j - i + 1))) else none
  | _, _ => none

/-- `ParamExtractor._extract_json`: search for the `{...}` span; on a match,
`json.loads` it, returning `{}` on a parse error; with no match return `{}`. -/
def _extract_json (text : String) : JsonValue :=
  match regexSpan text with
  | some span =>
    match jsonLoads span with
    | some v => v
    | none => JsonValue.obj []
  | none => JsonValue.obj []

/-! ## Execution tracker (`tool_tracker.py`)

`time.time()` is modelled by explicit `Nat` timestamps supplied at each call.
The update callback is modelled by a flag `update_callback` (whether one is
set) and a log `emitted` of the snapshots it was invoked on; the HTML report
passed to the Python callback is a pure rendering of the trace list, so the
log records the trace-list snapshot the report is rendered from.  Python's
`self.active_trace` holds a reference to a trace that also sits in
`self.traces`; the embedding represents it as the index of that trace. -/

/-- `ToolTrace.__init__`: name, inputs, start time, no end time, no outputs,
no error, status `"running"`. -/
structure ToolTrace (I O : Type) where
  tool_name : String
  inputs : I
  start_time : Nat
  end_time : Option Nat
  outputs : Option O
  error : Option String
  status : String

/-- A freshly constructed `ToolTrace(tool_name, inputs)` at time `now`. -/
def ToolTrace.init {I O : Type} (tool_name : String) (inputs : I) (now : Nat) :
    ToolTrace I O :=
  { tool_name := tool_name, inputs := inputs, start_time := now,
    end_time := none, outputs := none, error := none, status := "running" }

/-- `ToolTrace.complete`: set end time, outputs, status `"completed"`. -/
def ToolTrace.complete {I O : Type} (tr : ToolTrace I O) (now : Nat) (outputs : O) :
    ToolTrace I O :=
  { tr with end_time := some now, outputs := some outputs, status := "completed" }

/-- `ToolTrace.fail`: set end time, error, status `"error"`. -/
def ToolTrace.fail {I O : Type} (tr : ToolTrace I O) (now : Nat) (error : String) :
    ToolTrace I O :=
  { tr with end_time := some now, error := some error, status := "error" }

/-- `ToolTrace.get_duration`: frozen `end - start` once ended, live
`now - start` while running.  Python tests `if self.end_time:`, which is
falsy for `None` and for the timestamp `0.0`, so a zero end time also takes
the live branch. -/
def ToolTrace.get_duration {I O : Type} (tr : ToolTrace I O) (now : Nat) : Int :=
  match tr.end_time with
  | some e => if e ≠ 0 then (e : Int) - (tr.start_time : Int) else (now : Int) - (tr.start_time : Int)
  | none => (now : Int) - (tr.start_time : Int)

/-- `ToolTracker` state: ordered trace list, index of the active trace (if
any), whether an update callback is set, and the log of callback
invocations. -/
structure ToolTracker (I O : Type) where
  traces : List (ToolTrace I O)
  active_trace : Option Nat
  update_callback : Bool
  emitted : List (List (ToolTrace I O))

/-- `ToolTracker.__init__(update_callback)`. -/
def ToolTracker.init {I O : Type} (cb : Bool) : ToolTracker I O :=
  { traces := [], active_trace := none, update_callback := cb, emitted := [] }

/-- Fire the update callback (when set) with the current report. -/
def ToolTracker.notify {I O : Type} (tk : ToolTracker I O) : ToolTracker I O :=
  if tk.update_callback then { tk with emitted := tk.emitted ++ [tk.traces] } else tk

/-- `ToolTracker.start_trace`: append a fresh running trace, make it active,
fire the callback. -/
def ToolTracker.start_trace {I O : Type} (tk : ToolTracker I O) (now : Nat)
    (tool_name : String) (inputs : I) : ToolTracker I O :=
  let trace : ToolTrace I O := ToolTrace.init tool_name inputs now
  ToolTracker.notify
    { tk with traces := tk.traces ++ [trace], active_trace := some tk.traces.length }

/-- `ToolTracker.complete_trace`: when a trace is active, complete it, clear
the active pointer, fire the callback; otherwise do nothing. -/
def ToolTracker.complete_trace {I O : Type} (tk : ToolTracker I O) (now : Nat)
    (outputs : O) : ToolTracker I O :=
  match tk.active_trace with
  | some i =>
    ToolTracker.notify
      { tk with traces := tk.traces.modify (fun tr => tr.complete now outputs) i,
                active_trace := none }
  | none => tk

/-- `ToolTracker.fail_trace`: when a trace is active, fail it, clear the
active pointer, fire the callback; otherwise do nothing. -/
def ToolTracker.fail_trace {I O : Type} (tk : ToolTracker I O) (now : Nat)
    (error : String) : ToolTracker I O :=
  match tk.active_trace with
  | some i =>
    ToolTracker.notify
      { tk with traces := tk.traces.modify (fun tr => tr.fail now error) i,
                active_trace := none }
  | none => tk

/-- `ToolTracker.clear`: empty the trace list, clear the active pointer, fire
the callback. -/
def ToolTracker.clear {I O : Type} (tk : ToolTracker I O) : ToolTracker I O :=
  ToolTracker.notify { tk with traces := [], active_trace := none }

/-- One call into the tracker's state-transition interface (the calls a
tool-dispatch pass makes: `start_trace`, `complete_trace`, `fail_trace`). -/
inductive TrackerOp (I O : Type) where
  | start (now : Nat) (tool_name : String) (inputs : I) : TrackerOp I O
  | complete (now : Nat) (outputs : O) : TrackerOp I O
  | fail (now : Nat) (error : String) : TrackerOp I O

/-- Apply one tracker call. -/
def applyOp {I O : Type} (tk : ToolTracker I O) : TrackerOp I O → ToolTracker I O
  | TrackerOp.start now name inputs => tk.start_trace now name inputs
  | TrackerOp.complete now outputs => tk.complete_trace now outputs
  | TrackerOp.fail now error => tk.fail_trace now error

/-- Apply a sequence of tracker calls in order. -/
def applyOps {I O : Type} (tk : ToolTracker I O) (ops : List (TrackerOp I O)) :
    ToolTracker I O :=
  ops.foldl applyOp tk

/-! ## Streaming retry loop of `LLMManager.generate_response` (`llm_config.py`)

One `llm.stream(prompt_text)` call is modelled by the outcome it produces:
the chunks it yields in order, then either normal completion (`error = none`)
or an exception after the last yielded chunk (`error = some msg`).  The
environment is an oracle giving the outcome of the k-th stream call. -/

/-- Outcome of one `llm.stream` call: yielded chunks, then completion or an
exception. -/
structure StreamAttempt where
  chunks : List String
  error : Option String

/-- Python `if chunk:` — only non-empty chunks are delivered to the callback
and accumulated. -/
def nonEmptyChunks (a : StreamAttempt) : List String :=
  a.chunks.filter (fun c => c ≠ "")

/-- The `while retry_count < max_retries` loop of the streaming branch,
compiled to recursion on the remaining budget `max_retries - retry_count`:
consume one stream attempt, appending its (non-empty) chunks to the callback
log and to `response_text`; break on success; on an exception the increment
of `retry_count` exhausts the budget exactly when the remaining budget was 1,
i.e. the inner budget is 0 (`if retry_count == max_retries: break`), else
retry.  Returns `(response_text, delivered chunks, stream calls made so
far)`; `attempt_idx` counts the `llm.stream` calls already made. -/
def streamLoop (oracle : Nat → StreamAttempt) :
    Nat → Nat → String → List String → String × List String × Nat
  | 0, attempt_idx, response_text, delivered => (response_text, delivered, attempt_idx)
  | Nat.succ budget, attempt_idx, response_text, delivered =>
    let att := oracle attempt_idx
    let delivered2 := delivered ++ nonEmptyChunks att
    let text2 := response_text ++ String.join (nonEmptyChunks att)
    match att.error with
    | none => (text2, delivered2, attempt_idx + 1)
    | some _ =>
      if budget = 0 then (text2, delivered2, attempt_idx + 1)
      else streamLoop oracle budget (attempt_idx + 1) text2 delivered2

/-- The streaming branch of `generate_response` (`streaming_callback` set):
`response_text = ""`, `max_retries = 3`, `retry_count = 0`, then the retry
loop; the accumulated text is returned, never an exception. -/
def generate_response_streaming (oracle : Nat → StreamAttempt) :
    String × List String × Nat :=
  streamLoop oracle 3 0 "" []

/-! ## `ScriptTool.create_script_plan` (`script_tool.py`)

The `context` dict is read with `.get` and fixed defaults; it is embedded as
a structure of optional fields.  Prompt construction is total here, so the
only fallible step is `llm.invoke`, embedded as `Except`. -/

/-- The keys `create_script_plan` reads from its `context` dict. -/
structure ScriptContext where
  genre : Option String
  theme : Option String
  characters : Option (List String)
  setting : Option String
  duration : Option String

/-- The prompt f-string of `create_script_plan`. -/
def buildScriptPlanPrompt (genre theme characters_str setting duration : String) :
    String :=
  "\n    请为以下剧本创建一个详细的故事大纲和结构规划：\n\n    类型: " ++ genre ++
  "\n    主题: " ++ theme ++
  "\n    角色: " ++ characters_str ++
  "\n    设定: " ++ setting ++
  "\n    时长: " ++ duration ++
  "\n\n    请提供以下内容：\n    1. 故事概述 (一段简短的故事摘要)\n    2. 主要角色介绍和发展轨迹\n    3. 分为三幕的结构规划:\n        - 第一幕: 设置和介绍\n        - 第二幕: 冲突和发展\n        - 第三幕: 高潮和解决\n    4. 关键场景列表和简要描述\n    5. 主要情感线索和主题元素\n    "

/-- The prompt `create_script_plan` builds: read the context keys with
`.get` defaults, format the character list, fill the template. -/
def scriptPlanPrompt (context : ScriptContext) : String :=
  let genre := context.genre.getD "未知类型"
  let theme := context.theme.getD "未知主题"
  let characters := context.characters.getD []
  let setting := context.setting.getD "未知设定"
  let duration := context.duration.getD "未知时长"
  let characters_str := if characters ≠ [] then String.intercalate "、" characters
                        else "未指定角色"
  buildScriptPlanPrompt genre theme characters_str setting duration

/-- `ScriptTool.create_script_plan`: start a trace when a tracker is
attached, read the context keys with defaults, build the prompt, invoke the
LLM; on success complete the trace and return the response; on an exception
fail the trace and return the inline error string.  `t_start`/`t_end` are the
times of the trace start and of its completion/failure. -/
def ScriptTool.create_script_plan (llm : String → Except String String)
    (tracker : Option (ToolTracker ScriptContext String)) (t_start t_end : Nat)
    (context : ScriptContext) :
    String × Option (ToolTracker ScriptContext String) :=
  let tracker1 := tracker.map (fun tk => tk.start_trace t_start "创建剧本规划" context)
  match llm (scriptPlanPrompt context) with
  | Except.ok response =>
    (response, tracker1.map (fun tk => tk.complete_trace t_end response))
  | Except.error e =>
    ("创建剧本规划时出错: " ++ e, tracker1.map (fun tk => tk.fail_trace t_end e))

/-! ## `UserProfile.update_profile` (`preference_tool.py`)

`self.preferences` is the dict holding the five accumulator slots; the
embedding flattens them into fields.  String-keyed dicts are embedded as
insertion-ordered association lists with Python `dict.update` semantics. -/

/-- The `for x in new: if x not in acc: acc.append(x)` merge loop. -/
def dedupAppend (orig l : List String) : List String :=
  l.foldl (fun acc x => if x ∈ acc then acc else acc ++ [x]) orig

/-- One Python dict assignment `d[k] = v` on an insertion-ordered
association list: overwrite in place, or append a new key. -/
def assocSet (l : List (String × String)) (k v : String) : List (String × String) :=
  if l.any (fun p => p.1 == k) then
    l.map (fun p => if p.1 == k then (p.1, v) else p)
  else l ++ [(k, v)]

/-- Python `dict.update(new)`. -/
def dictUpdate (orig new : List (String × String)) : List (String × String) :=
  new.foldl (fun acc p => assocSet acc p.1 p.2) orig

/-- The argument of `update_profile`: a dict which may omit any of the five
keys (`none`), and whose present values may be empty (falsy). -/
structure PreferenceUpdate where
  topics : Option (List String)
  preferences : Option (List (String × String))
  goals : Option (List String)
  concerns : Option (List String)
  context : Option (List (String × String))

/-- `if key in new_preferences and new_preferences[key]:` guard around the
dedup merge of a list slot. -/
def applyListUpdate (orig : List String) (upd : Option (List String)) : List String :=
  match upd with
  | some l => if l = [] then orig else dedupAppend orig l
  | none => orig

/-- The same guard around `dict.update` of a mapping slot. -/
def applyDictUpdate (orig : List (String × String))
    (upd : Option (List (String × String))) : List (String × String) :=
  match upd with
  | some m => if m = [] then orig else dictUpdate orig m
  | none => orig

/-- `UserProfile`: the per-session accumulator. -/
structure UserProfile where
  user_id : String
  topics : List String
  preferences : List (String × String)
  goals : List String
  concerns : List String
  context : List (String × String)
  interaction_count : Nat

/-- `UserProfile.__init__`. -/
def UserProfile.init (user_id : String) : UserProfile :=
  { user_id := user_id, topics := [], preferences := [], goals := [],
    concerns := [], context := [], interaction_count := 0 }

/-- `UserProfile.update_profile`: dedup-merge topics/goals/concerns,
`dict.update` preferences/context, and increment `interaction_count`
unconditionally. -/
def UserProfile.update_profile (p : UserProfile) (u : PreferenceUpdate) : UserProfile :=
  { p with
    topics := applyListUpdate p.topics u.topics,
    preferences := applyDictUpdate p.preferences u.preferences,
    goals := applyListUpdate p.goals u.goals,
    concerns := applyListUpdate p.concerns u.concerns,
    context := applyDictUpdate p.context u.context,
    interaction_count := p.interaction_count + 1 }

/-! ## Concrete instances used by counterexamples and witnesses -/

/-- An intent whose `param_extractor` raises (`str(e) = "x"`); its keyword
`"a"` matches the input `"a"`. -/
def cExtractorRaisesIntent : ToolIntent Unit Unit :=
  { name := "t", keywords := ["a"],
    param_extractor := fun _ => Except.error "x",
    tool_func := fun _ => Except.ok (),
    description := "" }

/-- A registry holding only `cExtractorRaisesIntent`. -/
def cExtractorRaisesReg : ToolIntentRegistry Unit Unit :=
  { intents := [cExtractorRaisesIntent] }

/-- An intent whose extractor succeeds but whose tool function raises
`ValueError("bad")` (`str(e) = "bad"`); keyword `"a"`. -/
def cToolRaisesIntent : ToolIntent Unit Unit :=
  { name := "t2", keywords := ["a"],
    param_extractor := fun _ => Except.ok (),
    tool_func := fun _ => Except.error "bad",
    description := "" }

/-- An intent that matches `"a"` and fully succeeds. -/
def cOkIntent : ToolIntent Unit Unit :=
  { name := "ok1", keywords := ["a"],
    param_extractor := fun _ => Except.ok (),
    tool_func := fun _ => Except.ok (),
    description := "" }

/-- An intent whose keyword `"zz"` does not occur in `"a"`. -/
def cNoMatchIntent : ToolIntent Unit Unit :=
  { name := "nm", keywords := ["zz"],
    param_extractor := fun _ => Except.ok (),
    tool_func := fun _ => Except.ok (),
    description := "" }

/-- Stream-call oracle: the first `llm.stream` call yields the chunk `"a"`
and then raises; every later call yields `"b"` and completes. -/
def cOracleC2 : Nat → StreamAttempt := fun k =>
  if k = 0 then { chunks := ["a"], error := some "boom" }
  else { chunks := ["b"], error := none }

/-- Stream-call oracle on which every attempt fails after one chunk. -/
def cOracleFailAll : Nat → StreamAttempt := fun k =>
  { chunks := [toString k], error := some "down" }

/-- A tracker (ℕ inputs/outputs) with one running, active trace. -/
def cTrackerC9 : ToolTracker Nat Nat :=
  (ToolTracker.init false).start_trace 1 "a" 0

/-- A tracker-call sequence: complete, a further start, fail. -/
def cOpsC9 : List (TrackerOp Nat Nat) :=
  [TrackerOp.complete 2 5, TrackerOp.start 3 "b" 0, TrackerOp.fail 4 "e"]

/-- The single-key update `{"topics": ["a"]}`. -/
def cPrefUpdateA : PreferenceUpdate :=
  { topics := some ["a"], preferences := none, goals := none,
    concerns := none, context := none }

/-! ## Helper lemmas -/

theorem dedupAppend_cons (acc : List String) (y : String) (t : List String) :
    dedupAppend acc (y :: t) = dedupAppend (if y ∈ acc then acc else acc ++ [y]) t :=
  rfl

theorem mem_dedupAppend_left {x : String} {l acc : List String} (hx : x ∈ acc) :
    x ∈ dedupAppend acc l := by
  induction l generalizing acc with
  | nil => exact hx
  | cons y t ih =>
    rw [dedupAppend_cons]
    apply ih
    by_cases hy : y ∈ acc
    · simpa [hy] using hx
    · simp only [hy, if_false]
      exact List.mem_append_left _ hx

theorem mem_dedupAppend_right {x : String} {l acc : List String} (hx : x ∈ l) :
    x ∈ dedupAppend acc l := by
  induction l generalizing acc with
  | nil => cases hx
  | cons y t ih =>
    rw [dedupAppend_cons]
    rcases List.mem_cons.mp hx with rfl | hx'
    · apply mem_dedupAppend_left
      by_cases hy : x ∈ acc
      · simp [hy]
      · simp [hy]
    · exact ih hx'

theorem dedupAppend_eq_self {l acc : List String} (h : ∀ x ∈ l, x ∈ acc) :
    dedupAppend acc l = acc := by
  induction l generalizing acc with
  | nil => rfl
  | cons y t ih =>
    rw [dedupAppend_cons, if_pos (h y (List.mem_cons_self y t))]
    exact ih fun x hx => h x (List.mem_cons_of_mem _ hx)

theorem dedupAppend_idem (acc l : List String) :
    dedupAppend (dedupAppend acc l) l = dedupAppend acc l :=
  dedupAppend_eq_self fun _ hx => mem_dedupAppend_right hx

theorem applyListUpdate_idem (orig : List String) (u : Option (List String)) :
    applyListUpdate (applyListUpdate orig u) u = applyListUpdate orig u := by
  cases u with
  | none => rfl
  | some l =>
    by_cases hl : l = []
    · simp [applyListUpdate, hl]
    · simp [applyListUpdate, hl, dedupAppend_idem]

/-! ## C8 -/

/-- **C8.** `update_profile` is idempotent on repeated topics/goals/concerns
entries: a second application of the same update leaves the three
deduplicated lists unchanged (in particular merging `{"topics": ["a"]}`
twice yields `topics = ["a"]`, not `["a","a"]`), while `interaction_count`
increases by exactly 1 on every call, whatever the update's content
(including the empty update). -/
theorem C8_update_profile_dedup_and_count :
    (∀ (p : UserProfile) (u : PreferenceUpdate),
      ((p.update_profile u).update_profile u).topics = (p.update_profile u).topics ∧
      ((p.update_profile u).update_profile u).goals = (p.update_profile u).goals ∧
      ((p.update_profile u).update_profile u).concerns = (p.update_profile u).concerns) ∧
    (∀ (p : UserProfile) (u : PreferenceUpdate),
      (p.update_profile u).interaction_count = p.interaction_count + 1) ∧
    (((UserProfile.init "u").update_profile cPrefUpdateA).update_profile
        cPrefUpdateA).topics = ["a"] := by
  refine ⟨fun p u => ⟨?_, ?_, ?_⟩, fun p u => rfl, by decide⟩ <;>
    simp [UserProfile.update_profile, applyListUpdate_idem]

/-! ## Tracker lemmas -/

theorem notify_traces {I O : Type} (tk : ToolTracker I O) :
    (ToolTracker.notify tk).traces = tk.traces := by
  unfold ToolTracker.notify; split <;> rfl

theorem notify_active {I O : Type} (tk : ToolTracker I O) :
    (ToolTracker.notify tk).active_trace = tk.active_trace := by
  unfold ToolTracker.notify; split <;> rfl

theorem start_trace_traces {I O : Type} (tk : ToolTracker I O) (now : Nat)
    (name : String) (inputs : I) :
    (tk.start_trace now name inputs).traces =
      tk.traces ++ [ToolTrace.init name inputs now] := by
  unfold ToolTracker.start_trace
  rw [notify_traces]

theorem start_trace_active {I O : Type} (tk : ToolTracker I O) (now : Nat)
    (name : String) (inputs : I) :
    (tk.start_trace now name inputs).active_trace = some tk.traces.length := by
  unfold ToolTracker.start_trace
  rw [notify_active]

theorem complete_trace_of_active {I O : Type} {tk : ToolTracker I O} {i : Nat}
    (h : tk.active_trace = some i) (now : Nat) (outputs : O) :
    tk.complete_trace now outputs =
      ToolTracker.notify
        { tk with traces := tk.traces.modify (fun tr => tr.complete now outputs) i,
                  active_trace := none } := by
  unfold ToolTracker.complete_trace
  rw [h]

theorem fail_trace_of_active {I O : Type} {tk : ToolTracker I O} {i : Nat}
    (h : tk.active_trace = some i) (now : Nat) (error : String) :
    tk.fail_trace now error =
      ToolTracker.notify
        { tk with traces := tk.traces.modify (fun tr => tr.fail now error) i,
                  active_trace := none } := by
  unfold ToolTracker.fail_trace
  rw [h]

/-! ## C10 -/

/-- **C10.** With no active trace, `complete_trace` and `fail_trace` are
complete no-ops: the resulting tracker state — trace list, every stored
trace, active pointer, and the callback-invocation log (the observer is not
invoked) — is equal to the original. -/
theorem C10_finalize_without_active_is_noop {I O : Type} (tk : ToolTracker I O)
    (h : tk.active_trace = none) (now : Nat) (outputs : O) (error : String) :
    tk.complete_trace now outputs = tk ∧ tk.fail_trace now error = tk := by
  constructor
  · unfold ToolTracker.complete_trace; rw [h]
  · unfold ToolTracker.fail_trace; rw [h]

/-- Witness for C10 at a concrete fresh tracker. -/
theorem C10_witness :
    (ToolTracker.init true : ToolTracker Nat Nat).complete_trace 5 7 =
        ToolTracker.init true ∧
      (ToolTracker.init true : ToolTracker Nat Nat).fail_trace 5 "e" =
        ToolTracker.init true :=
  C10_finalize_without_active_is_noop (ToolTracker.init true) rfl 5 7 "e"

/-! ## C6 -/

/-- **C6.** On a fresh tracker (with or without a callback), `start_trace "x" {}`
followed by `complete_trace "ok"` leaves exactly one trace, with status
`"completed"`, outputs `"ok"`, an end timestamp set, and non-negative
duration; `start_trace "x" {}` followed by `fail_trace "boom"` leaves exactly
one trace with status `"error"` and error `"boom"`; in both cases the active
pointer is cleared.  Timestamps `n1 ≤ n2` model the monotone clock. -/
theorem C6_start_complete_fail_scenarios (cb : Bool) (n1 n2 : Nat) (h : n1 ≤ n2) :
    (∃ tr : ToolTrace (List (String × String)) String,
      ((((ToolTracker.init cb : ToolTracker (List (String × String)) String)).start_trace n1 "x" []).complete_trace n2 "ok").traces
          = [tr] ∧
        tr.status = "completed" ∧ tr.outputs = some "ok" ∧
        tr.end_time = some n2 ∧ 0 ≤ tr.get_duration n2) ∧
    ((((ToolTracker.init cb : ToolTracker (List (String × String)) String)).start_trace n1 "x" []).complete_trace n2 "ok").active_trace
        = none ∧
    (∃ tr : ToolTrace (List (String × String)) String,
      ((((ToolTracker.init cb : ToolTracker (List (String × String)) String)).start_trace n1 "x" []).fail_trace n2 "boom").traces
          = [tr] ∧
        tr.status = "error" ∧ tr.error = some "boom") ∧
    ((((ToolTracker.init cb : ToolTracker (List (String × String)) String)).start_trace n1 "x" []).fail_trace n2 "boom").active_trace
        = none := by
  have hdur : (0 : Int) ≤
      (ToolTrace.get_duration
        { tool_name := "x", inputs := ([] : List (String × String)),
          start_time := n1, end_time := some n2, outputs := some "ok",
          error := none, status := "completed" } n2) := by
    simp only [ToolTrace.get_duration]
    split <;> omega
  cases cb <;>
    exact ⟨⟨{ tool_name := "x", inputs := [], start_time := n1, end_time := some n2,
              outputs := some "ok", error := none, status := "completed" },
            rfl, rfl, rfl, rfl, hdur⟩,
          rfl,
          ⟨{ tool_name := "x", inputs := [], start_time := n1, end_time := some n2,
             outputs := none, error := some "boom", status := "error" },
            rfl, rfl, rfl⟩,
          rfl⟩

/-- Witness for C6 at a concrete clock (3 ≤ 5) with a callback attached. -/
theorem C6_witness :
    (∃ tr : ToolTrace (List (String × String)) String,
      ((((ToolTracker.init true : ToolTracker (List (String × String)) String)).start_trace 3 "x" []).complete_trace 5 "ok").traces
          = [tr] ∧
        tr.status = "completed" ∧ tr.outputs = some "ok" ∧
        tr.end_time = some 5 ∧ 0 ≤ tr.get_duration 5) ∧
    ((((ToolTracker.init true : ToolTracker (List (String × String)) String)).start_trace 3 "x" []).complete_trace 5 "ok").active_trace
        = none ∧
    (∃ tr : ToolTrace (List (String × String)) String,
      ((((ToolTracker.init true : ToolTracker (List (String × String)) String)).start_trace 3 "x" []).fail_trace 5 "boom").traces
          = [tr] ∧
        tr.status = "error" ∧ tr.error = some "boom") ∧
    ((((ToolTracker.init true : ToolTracker (List (String × String)) String)).start_trace 3 "x" []).fail_trace 5 "boom").active_trace
        = none :=
  C6_start_complete_fail_scenarios true 3 5 (by decide)

/-! ## C9 -/

theorem complete_trace_of_none {I O : Type} {tk : ToolTracker I O}
    (h : tk.active_trace = none) (now : Nat) (outputs : O) :
    tk.complete_trace now outputs = tk := by
  unfold ToolTracker.complete_trace
  rw [h]

theorem fail_trace_of_none {I O : Type} {tk : ToolTracker I O}
    (h : tk.active_trace = none) (now : Nat) (error : String) :
    tk.fail_trace now error = tk := by
  unfold ToolTracker.fail_trace
  rw [h]

theorem applyOp_preserves {I O : Type} (i : Nat) (s : ToolTracker I O)
    (op : TrackerOp I O) (hi : i < s.traces.length)
    (hact : ∀ j, s.active_trace = some j → i < j) :
    (applyOp s op).traces[i]? = s.traces[i]? ∧
      i < (applyOp s op).traces.length ∧
      (∀ j, (applyOp s op).active_trace = some j → i < j) := by
  cases op with
  | start now name inputs =>
    refine ⟨?_, ?_, ?_⟩
    · rw [applyOp, start_trace_traces, List.getElem?_append]
      simp [hi]
    · rw [applyOp, start_trace_traces, List.length_append]
      omega
    · intro j hj
      rw [applyOp, start_trace_active] at hj
      cases hj
      exact hi
  | complete now outputs =>
    cases hA : s.active_trace with
    | none =>
      rw [applyOp, complete_trace_of_none hA]
      exact ⟨rfl, hi, hact⟩
    | some j =>
      have hij : i < j := hact j hA
      have heq := complete_trace_of_active hA now outputs
      refine ⟨?_, ?_, ?_⟩
      · rw [applyOp, heq, notify_traces]
        simp [List.getElem?_modify, Nat.ne_of_gt hij]
      · rw [applyOp, heq, notify_traces]
        simpa using hi
      · intro k hk
        rw [applyOp, heq, notify_active] at hk
        cases hk
  | fail now error =>
    cases hA : s.active_trace with
    | none =>
      rw [applyOp, fail_trace_of_none hA]
      exact ⟨rfl, hi, hact⟩
    | some j =>
      have hij : i < j := hact j hA
      have heq := fail_trace_of_active hA now error
      refine ⟨?_, ?_, ?_⟩
      · rw [applyOp, heq, notify_traces]
        simp [List.getElem?_modify, Nat.ne_of_gt hij]
      · rw [applyOp, heq, notify_traces]
        simpa using hi
      · intro k hk
        rw [applyOp, heq, notify_active] at hk
        cases hk

theorem applyOps_preserves {I O : Type} (i : Nat) (ops : List (TrackerOp I O)) :
    ∀ s : ToolTracker I O, i < s.traces.length →
      (∀ j, s.active_trace = some j → i < j) →
      (applyOps s ops).traces[i]? = s.traces[i]? := by
  induction ops with
  | nil => intro s _ _; rfl
  | cons op rest ih =>
    intro s hi hact
    obtain ⟨h1, h2, h3⟩ := applyOp_preserves i s op hi hact
    calc (applyOps s (op :: rest)).traces[i]?
        = (applyOps (applyOp s op) rest).traces[i]? := rfl
      _ = (applyOp s op).traces[i]? := ih (applyOp s op) h2 h3
      _ = s.traces[i]? := h1

/-- **C9.** If `start_trace` is called while the trace at index `i` is still
the active one, the new trace is appended (the list grows by one, the new
running trace sits at the end) and becomes the active one — and the
previously active trace is orphaned: whatever sequence of `start_trace` /
`complete_trace` / `fail_trace` calls follows, the entry at index `i` is
never touched again (so it keeps status `"running"` and its absent end
timestamp forever), because those calls only ever act on the currently
active trace. -/
theorem C9_start_while_active_orphans_previous {I O : Type} (tk : ToolTracker I O)
    (i : Nat) (_hact : tk.active_trace = some i) (hi : i < tk.traces.length)
    (now : Nat) (name : String) (inputs : I) (ops : List (TrackerOp I O)) :
    (tk.start_trace now name inputs).traces.length = tk.traces.length + 1 ∧
      (tk.start_trace now name inputs).traces[tk.traces.length]? =
        some (ToolTrace.init name inputs now) ∧
      (tk.start_trace now name inputs).active_trace = some tk.traces.length ∧
      (applyOps (tk.start_trace now name inputs) ops).traces[i]? = tk.traces[i]? := by
  refine ⟨?_, ?_, start_trace_active tk now name inputs, ?_⟩
  · rw [start_trace_traces, List.length_append]
    rfl
  · rw [start_trace_traces]
    exact List.getElem?_concat_length _ _
  · have h1 : (tk.start_trace now name inputs).traces[i]? = tk.traces[i]? := by
      rw [start_trace_traces, List.getElem?_append]
      simp [hi]
    have h2 : i < (tk.start_trace now name inputs).traces.length := by
      rw [start_trace_traces, List.length_append]
      omega
    have h3 : ∀ j, (tk.start_trace now name inputs).active_trace = some j → i < j := by
      intro j hj
      rw [start_trace_active] at hj
      cases hj
      exact hi
    rw [applyOps_preserves i ops _ h2 h3, h1]

/-- Witness for C9: a tracker with one active running trace, a second
`start_trace` while it is active, then a complete / start / fail sequence;
the original trace at index 0 is untouched. -/
theorem C9_witness :
    (cTrackerC9.start_trace 2 "b" 1).traces.length = cTrackerC9.traces.length + 1 ∧
      (cTrackerC9.start_trace 2 "b" 1).traces[cTrackerC9.traces.length]? =
        some (ToolTrace.init "b" 1 2) ∧
      (cTrackerC9.start_trace 2 "b" 1).active_trace = some cTrackerC9.traces.length ∧
      (applyOps (cTrackerC9.start_trace 2 "b" 1) cOpsC9).traces[0]? =
        cTrackerC9.traces[0]? :=
  C9_start_while_active_orphans_previous cTrackerC9 0 rfl (by decide) 2 "b" 1 cOpsC9

/-! ## C7 -/

/-- **C7.** If the LLM call inside `create_script_plan` raises (`str(e) = e`),
the tool returns the human-readable inline error string instead of
propagating the exception (the embedding's return type `String` — not
`Except` — reflects that this layer never raises), and, when a tracer is
attached, the trace it started is finalized with status `"error"` and the
error message, with the active pointer cleared. -/
theorem C7_create_script_plan_error_inline (llm : String → Except String String)
    (tracker : Option (ToolTracker ScriptContext String)) (t1 t2 : Nat)
    (context : ScriptContext) (e : String)
    (hfail : llm (scriptPlanPrompt context) = Except.error e) :
    (ScriptTool.create_script_plan llm tracker t1 t2 context).1 =
        "创建剧本规划时出错: " ++ e ∧
      (tracker = none → (ScriptTool.create_script_plan llm tracker t1 t2 context).2 = none) ∧
      (∀ tk, tracker = some tk →
        ∃ tk', (ScriptTool.create_script_plan llm tracker t1 t2 context).2 = some tk' ∧
          tk'.active_trace = none ∧
          ∃ tr, tk'.traces[tk.traces.length]? = some tr ∧
            tr.status = "error" ∧ tr.error = some e) := by
  refine ⟨?_, ?_, ?_⟩
  · unfold ScriptTool.create_script_plan
    rw [hfail]
  · intro hnone
    unfold ScriptTool.create_script_plan
    rw [hfail, hnone]
    rfl
  · intro tk htk
    unfold ScriptTool.create_script_plan
    rw [hfail, htk]
    refine ⟨((tk.start_trace t1 "创建剧本规划" context).fail_trace t2 e), rfl, ?_, ?_⟩
    · rw [fail_trace_of_active (start_trace_active tk t1 "创建剧本规划" context) t2 e,
        notify_active]
    · refine ⟨(ToolTrace.init "创建剧本规划" context t1).fail t2 e, ?_, rfl, rfl⟩
      rw [fail_trace_of_active (start_trace_active tk t1 "创建剧本规划" context) t2 e,
        notify_traces]
      show ((tk.start_trace t1 "创建剧本规划" context).traces.modify _
        tk.traces.length)[tk.traces.length]? = _
      rw [start_trace_traces]
      simp [List.getElem?_modify, List.getElem?_concat_length]

/-- Witness for C7: an LLM that always raises `"bad"`, a fresh tracker with a
callback, an empty context. -/
theorem C7_witness :
    ((ScriptTool.create_script_plan (fun _ => Except.error "bad")
        (some (ToolTracker.init true)) 1 2
        { genre := none, theme := none, characters := none, setting := none,
          duration := none }).1 = "创建剧本规划时出错: " ++ "bad") ∧
      (∃ tk', (ScriptTool.create_script_plan (fun _ => Except.error "bad")
          (some (ToolTracker.init true)) 1 2
          { genre := none, theme := none, characters := none, setting := none,
            duration := none }).2 = some tk' ∧
        tk'.active_trace = none ∧
        ∃ tr, tk'.traces[(ToolTracker.init true :
            ToolTracker ScriptContext String).traces.length]? = some tr ∧
          tr.status = "error" ∧ tr.error = some "bad") := by
  have h := C7_create_script_plan_error_inline (fun _ => Except.error "bad")
    (some (ToolTracker.init true)) 1 2
    { genre := none, theme := none, characters := none, setting := none,
      duration := none } "bad" rfl
  exact ⟨h.1, h.2.2 (ToolTracker.init true) rfl⟩

/-! ## C5 -/

/-- **C5.** `_extract_json` takes the region from the first `{` to the last
`}` of the reply (the `re.search` span) and `json.loads`-parses it; when the
reply has no such span it returns the empty mapping, when parsing the span
fails it returns the empty mapping (it never raises — the embedding is a
total function into `JsonValue`), and on the reply
`here is json: {"a": 1} done` it returns the mapping `{"a": 1}`. -/
theorem C5_extract_json_region_and_fallback :
    (∀ s, regexSpan s = none → _extract_json s = JsonValue.obj []) ∧
      (∀ s r, regexSpan s = some r → jsonLoads r = none →
        _extract_json s = JsonValue.obj []) ∧
      (∀ s r v, regexSpan s = some r → jsonLoads r = some v → _extract_json s = v) ∧
      regexSpan "here is json: \x7b\"a\": 1\x7d done" = some "\x7b\"a\": 1\x7d" ∧
      _extract_json "here is json: \x7b\"a\": 1\x7d done" =
        JsonValue.obj [("a", JsonValue.num 1)] := by
  refine ⟨?_, ?_, ?_, by rfl, by rfl⟩
  · intro s hs
    unfold _extract_json
    rw [hs]
  · intro s r hs hr
    unfold _extract_json
    simp only [hs, hr]
  · intro s r v hs hv
    unfold _extract_json
    simp only [hs, hv]

/-- Witness for C5: a reply with no brace span, a span that is not JSON, and
a span that parses. -/
theorem C5_witness :
    _extract_json "no braces here" = JsonValue.obj [] ∧
      _extract_json "\x7bnot json\x7d" = JsonValue.obj [] ∧
      _extract_json "x \x7b\"k\": [1, true, null]\x7d y" =
        JsonValue.obj [("k", JsonValue.arr [JsonValue.num 1, JsonValue.bool true,
          JsonValue.null])] := by
  refine ⟨?_, ?_, ?_⟩
  · exact (C5_extract_json_region_and_fallback.1 "no braces here") rfl
  · exact (C5_extract_json_region_and_fallback.2.1 "\x7bnot json\x7d" "\x7bnot json\x7d")
      rfl rfl
  · exact (C5_extract_json_region_and_fallback.2.2.1 "x \x7b\"k\": [1, true, null]\x7d y"
      "\x7b\"k\": [1, true, null]\x7d"
      (JsonValue.obj [("k", JsonValue.arr [JsonValue.num 1, JsonValue.bool true,
        JsonValue.null])]) rfl rfl)

/-! ## Registry lemmas -/

theorem detectAndRunList_append {P R : Type} (l1 l2 : List (ToolIntent P R))
    (text : String) :
    detectAndRunList (l1 ++ l2) text =
      match detectAndRunList l1 text with
      | Except.error e => Except.error e
      | Except.ok s1 =>
        match detectAndRunList l2 text with
        | Except.error e => Except.error e
        | Except.ok s2 => Except.ok (s1 ++ s2) := by
  induction l1 with
  | nil =>
    show detectAndRunList l2 text = _
    cases detectAndRunList l2 text <;> rfl
  | cons i rest ih =>
    show detectAndRunList (i :: (rest ++ l2)) text = _
    by_cases hm : i.matches text = true
    · simp only [detectAndRunList, hm, if_true, ih]
      cases runIntent i text <;> cases detectAndRunList rest text <;>
        cases detectAndRunList l2 text <;> simp
    · simp only [detectAndRunList, hm, Bool.false_eq_true, if_false, ih]

theorem detectAndRunList_ok_of_extractors_ok {P R : Type} (text : String) :
    ∀ intents : List (ToolIntent P R),
      (∀ i ∈ intents, i.matches text = true →
        ∃ p, i.param_extractor text = Except.ok p) →
      ∃ l, detectAndRunList intents text = Except.ok l ∧
        l.map (fun s => s.intent) =
          (intents.filter (fun i => i.matches text)).map (fun i => i.name) := by
  intro intents
  induction intents with
  | nil => intro _; exact ⟨[], rfl, rfl⟩
  | cons i rest ih =>
    intro hext
    obtain ⟨l, hl, hmap⟩ := ih fun j hj hm => hext j (List.mem_cons_of_mem _ hj) hm
    by_cases hm : i.matches text = true
    · obtain ⟨p, hp⟩ := hext i (List.mem_cons_self _ _) hm
      have hri : ∃ s : TraceSummary P R,
          runIntent i text = Except.ok s ∧ s.intent = i.name := by
        cases ht : i.tool_func p with
        | error e =>
          refine ⟨{ intent := i.name, params := p, result := none, error := some e,
                    status := "fail", description := i.description }, ?_, rfl⟩
          unfold runIntent
          simp only [hp, ht]
        | ok r =>
          refine ⟨{ intent := i.name, params := p, result := some r, error := none,
                    status := "success", description := i.description }, ?_, rfl⟩
          unfold runIntent
          simp only [hp, ht]
      obtain ⟨s, hs, hsi⟩ := hri
      refine ⟨s :: l, ?_, ?_⟩
      · simp only [detectAndRunList, hm, if_true, hs, hl]
      · simp [List.filter_cons, hm, hmap, hsi]
    · refine ⟨l, ?_, ?_⟩
      · simp only [detectAndRunList, hm, Bool.false_eq_true, if_false, hl]
      · simp [List.filter_cons, hm, hmap]

/-! ## C1 -/

/-- Counterexample to C1 as stated: an intent whose `param_extractor` raises
(`"x"`) on a matching input makes `detect_and_run` itself raise — the
exception is NOT caught, no `fail` summary is recorded, no list is
returned. -/
theorem C1_counterexample :
    cExtractorRaisesReg.detect_and_run "a" = Except.error "x" ∧
      ∀ l, cExtractorRaisesReg.detect_and_run "a" ≠ Except.ok l := by
  refine ⟨rfl, fun l h => ?_⟩
  rw [show cExtractorRaisesReg.detect_and_run "a" = Except.error "x" from rfl] at h
  exact Except.noConfusion h

/-- **C1 (amended).** Exceptions raised by an intent's tool function during
invocation are caught inside `detect_and_run`, recorded as a `"fail"` summary
with the error message, and evaluation continues with the remaining intents;
but an exception raised by an intent's `param_extractor` is NOT caught: it
propagates out of `detect_and_run` (which then returns no summary list) and
evaluation of the remaining intents is aborted. -/
theorem C1_extractor_uncaught_tool_caught :
    (∀ {P R : Type} (pre post : List (ToolIntent P R)) (i : ToolIntent P R)
        (text msg : String) (s1 : List (TraceSummary P R)),
      detectAndRunList pre text = Except.ok s1 →
      i.matches text = true →
      i.param_extractor text = Except.error msg →
      (ToolIntentRegistry.mk (pre ++ i :: post)).detect_and_run text =
        Except.error msg) ∧
    (∀ {P R : Type} (pre post : List (ToolIntent P R)) (i : ToolIntent P R)
        (text e : String) (p : P) (s1 : List (TraceSummary P R)),
      detectAndRunList pre text = Except.ok s1 →
      i.matches text = true →
      i.param_extractor text = Except.ok p →
      i.tool_func p = Except.error e →
      (ToolIntentRegistry.mk (pre ++ i :: post)).detect_and_run text =
        match detectAndRunList post text with
        | Except.error e2 => Except.error e2
        | Except.ok s2 =>
          Except.ok (s1 ++
            ({ intent := i.name, params := p, result := none, error := some e,
               status := "fail", description := i.description } :
              TraceSummary P R) :: s2)) := by
  constructor
  · intro P R pre post i text msg s1 h1 hm hp
    show detectAndRunList (pre ++ i :: post) text = Except.error msg
    rw [detectAndRunList_append, h1]
    simp only [detectAndRunList, hm, if_true]
    unfold runIntent
    simp only [hp]
  · intro P R pre post i text e p s1 h1 hm hp hbad
    show detectAndRunList (pre ++ i :: post) text = _
    rw [detectAndRunList_append, h1]
    simp only [detectAndRunList, hm, if_true]
    unfold runIntent
    simp only [hp, hbad]
    cases detectAndRunList post text <;> rfl

/-- Witness for C1 (amended), both halves at concrete registries: the
extractor exception escapes as `error "x"`; the tool-function exception is
recorded as a `fail` summary with error `"bad"`. -/
theorem C1_witness :
    (ToolIntentRegistry.mk ([] ++ cExtractorRaisesIntent :: [])).detect_and_run "a" =
        Except.error "x" ∧
      (ToolIntentRegistry.mk ([] ++ cToolRaisesIntent :: [])).detect_and_run "a" =
        Except.ok [{ intent := "t2", params := (), result := none,
                     error := some "bad", status := "fail", description := "" }] := by
  constructor
  · exact C1_extractor_uncaught_tool_caught.1 [] [] cExtractorRaisesIntent "a" "x" []
      rfl rfl rfl
  · exact C1_extractor_uncaught_tool_caught.2 [] [] cToolRaisesIntent "a" "bad" () []
      rfl rfl rfl rfl

/-! ## C3 -/

/-- Counterexample to C3 as stated: for the registry whose single intent
matches `"a"` but whose extractor raises, `detect_and_run "a"` returns no
summary list at all (it raises), so there is no list satisfying the claimed
inclusion-iff-match / count property. -/
theorem C3_counterexample :
    cExtractorRaisesIntent.matches "a" = true ∧
      ¬ ∃ l, cExtractorRaisesReg.detect_and_run "a" = Except.ok l ∧
        (∀ i ∈ cExtractorRaisesReg.intents,
          ((∃ s ∈ l, s.intent = i.name) ↔ i.matches "a" = true)) ∧
        l.length =
          (cExtractorRaisesReg.intents.filter (fun i => i.matches "a")).length := by
  refine ⟨rfl, ?_⟩
  rintro ⟨l, h, -, -⟩
  rw [show cExtractorRaisesReg.detect_and_run "a" = Except.error "x" from rfl] at h
  exact Except.noConfusion h

/-- **C3 (amended).** Provided every matched intent's `param_extractor`
returns normally (and intent names are unique, as the data model requires),
`detect_and_run text` returns a list that includes a summary for an intent I
iff at least one of I's keywords occurs as a case-sensitive substring of
`text`, and the number of summaries equals the number of intents whose match
predicate is true (possibly zero, possibly all). -/
theorem C3_summary_iff_keyword_match {P R : Type} (reg : ToolIntentRegistry P R)
    (text : String)
    (hext : ∀ i ∈ reg.intents, i.matches text = true →
      ∃ p, i.param_extractor text = Except.ok p)
    (hnames : (reg.intents.map (fun i => i.name)).Nodup) :
    ∃ l, reg.detect_and_run text = Except.ok l ∧
      (∀ i ∈ reg.intents, ((∃ s ∈ l, s.intent = i.name) ↔ i.matches text = true)) ∧
      l.length = (reg.intents.filter (fun i => i.matches text)).length := by
  obtain ⟨l, hl, hmap⟩ := detectAndRunList_ok_of_extractors_ok text reg.intents hext
  refine ⟨l, hl, ?_, ?_⟩
  · intro i hi
    constructor
    · rintro ⟨s, hs, hsi⟩
      have hmem : i.name ∈ l.map (fun s => s.intent) := List.mem_map.mpr ⟨s, hs, hsi⟩
      rw [hmap] at hmem
      obtain ⟨j, hj, hj2⟩ := List.mem_map.mp hmem
      have hjmem : j ∈ reg.intents := (List.mem_filter.mp hj).1
      have hjm : j.matches text = true := (List.mem_filter.mp hj).2
      have hji : j = i := List.inj_on_of_nodup_map hnames hjmem hi hj2
      rwa [hji] at hjm
    · intro hm
      have hif : i ∈ reg.intents.filter (fun i => i.matches text) :=
        List.mem_filter.mpr ⟨hi, hm⟩
      have hmem : i.name ∈
          (reg.intents.filter (fun i => i.matches text)).map (fun i => i.name) :=
        List.mem_map.mpr ⟨i, hif, rfl⟩
      rw [← hmap] at hmem
      exact List.mem_map.mp hmem
  · have hlen := congrArg List.length hmap
    simpa using hlen

/-- Witness for C3 (amended): a registry with one matching and one
non-matching intent on input `"a"`. -/
theorem C3_witness :
    ∃ l, (ToolIntentRegistry.mk [cOkIntent, cNoMatchIntent]).detect_and_run "a" =
        Except.ok l ∧
      (∀ i ∈ (ToolIntentRegistry.mk [cOkIntent, cNoMatchIntent]).intents,
        ((∃ s ∈ l, s.intent = i.name) ↔ i.matches "a" = true)) ∧
      l.length = ((ToolIntentRegistry.mk [cOkIntent, cNoMatchIntent]).intents.filter
        (fun i => i.matches "a")).length :=
  C3_summary_iff_keyword_match (ToolIntentRegistry.mk [cOkIntent, cNoMatchIntent]) "a"
    (by
      intro i hi _
      rcases List.mem_cons.mp hi with rfl | hi2
      · exact ⟨(), rfl⟩
      · rcases List.mem_cons.mp hi2 with rfl | hi3
        · exact ⟨(), rfl⟩
        · cases hi3)
    (by decide)

/-! ## C4 -/

/-- **C4.** For a registered intent whose tool function raises an exception
with message `"bad"` on a matching input (every matched intent's extractor
returning normally), `detect_and_run` returns a summary list containing, for
that intent, a summary with status `"fail"` and error `"bad"` — and no
exception escapes (`Except.ok`). -/
theorem C4_tool_exception_fail_summary {P R : Type} (reg : ToolIntentRegistry P R)
    (text : String) (i : ToolIntent P R) (p : P)
    (hext : ∀ j ∈ reg.intents, j.matches text = true →
      ∃ q, j.param_extractor text = Except.ok q)
    (hmem : i ∈ reg.intents) (hm : i.matches text = true)
    (hp : i.param_extractor text = Except.ok p)
    (hbad : i.tool_func p = Except.error "bad") :
    ∃ l, reg.detect_and_run text = Except.ok l ∧
      ∃ s ∈ l, s.intent = i.name ∧ s.status = "fail" ∧ s.error = some "bad" := by
  obtain ⟨pre, post, hsplit⟩ := List.append_of_mem hmem
  obtain ⟨s1, h1, -⟩ := detectAndRunList_ok_of_extractors_ok text pre fun j hj hjm =>
    hext j (by rw [hsplit]; exact List.mem_append_left _ hj) hjm
  obtain ⟨s2, h2, -⟩ := detectAndRunList_ok_of_extractors_ok text post fun j hj hjm =>
    hext j (by rw [hsplit]; exact List.mem_append_right _ (List.mem_cons_of_mem _ hj)) hjm
  have hone : detectAndRunList (i :: post) text =
      Except.ok (({ intent := i.name, params := p, result := none,
                    error := some "bad", status := "fail",
                    description := i.description } : TraceSummary P R) :: s2) := by
    simp only [detectAndRunList, hm, if_true]
    unfold runIntent
    simp only [hp, hbad, h2]
  have hall : reg.detect_and_run text =
      Except.ok (s1 ++ ({ intent := i.name, params := p, result := none,
                          error := some "bad", status := "fail",
                          description := i.description } : TraceSummary P R) :: s2) := by
    show detectAndRunList reg.intents text = _
    rw [hsplit, detectAndRunList_append, h1, hone]
  exact ⟨_, hall, _,
    List.mem_append_right _ (List.mem_cons_self _ _), rfl, rfl, rfl⟩

/-- Witness for C4: the registry holding only `cToolRaisesIntent` on input
`"a"`. -/
theorem C4_witness :
    ∃ l, (ToolIntentRegistry.mk [cToolRaisesIntent]).detect_and_run "a" =
        Except.ok l ∧
      ∃ s ∈ l, s.intent = cToolRaisesIntent.name ∧ s.status = "fail" ∧
        s.error = some "bad" :=
  C4_tool_exception_fail_summary (ToolIntentRegistry.mk [cToolRaisesIntent]) "a"
    cToolRaisesIntent ()
    (fun j hj _ => ⟨(), by
      rcases List.mem_cons.mp hj with rfl | hj2
      · rfl
      · cases hj2⟩)
    (List.mem_cons_self _ _) rfl rfl rfl

/-! ## C2 -/

theorem foldl_append_init (t : List String) : ∀ a : String,
    List.foldl (fun r s => r ++ s) a t = a ++ List.foldl (fun r s => r ++ s) "" t := by
  induction t with
  | nil => intro a; simp
  | cons s t ih =>
    intro a
    simp only [List.foldl_cons]
    rw [ih (a ++ s), ih ("" ++ s)]
    simp [String.append_assoc]

theorem string_join_cons (s : String) (t : List String) :
    String.join (s :: t) = s ++ String.join t := by
  show List.foldl _ ("" ++ s) t = _
  rw [foldl_append_init]
  simp [String.join]

theorem string_join_append (l1 l2 : List String) :
    String.join (l1 ++ l2) = String.join l1 ++ String.join l2 := by
  induction l1 with
  | nil => simp [String.join]
  | cons s t ih =>
    simp [string_join_cons, ih, String.append_assoc]

/-- Counterexample to C2 as stated: on `cOracleC2` the first attempt delivers
the chunk `"a"` to the callback and then fails, yet the loop retries anyway —
a second `llm.stream` call is made (2 calls in total, not 1), and the second
attempt's chunk is appended after the partial output (`"ab"`).  There is no
"stop retrying once a chunk has been delivered" check in the loop. -/
theorem C2_counterexample :
    (cOracleC2 0).chunks = ["a"] ∧ (cOracleC2 0).error = some "boom" ∧
      generate_response_streaming cOracleC2 = ("ab", ["a", "b"], 2) ∧
      (generate_response_streaming cOracleC2).2.2 ≠ 1 := by
  refine ⟨rfl, rfl, by decide, by decide⟩

/-- **C2 (amended).** The streaming path makes at most 3 stream attempts in
total, retrying after each failed attempt regardless of whether chunks were
already delivered (chunks of retried attempts are appended after the prior
partial output); the accumulated text is exactly the concatenation of the
non-empty chunks delivered over the attempts actually made; and when every
attempt fails, all 3 attempts are consumed and the accumulated partial text
is returned rather than an exception being raised. -/
theorem C2_stream_retry_bound_and_append (oracle : Nat → StreamAttempt) :
    (generate_response_streaming oracle).2.2 ≤ 3 ∧
      (generate_response_streaming oracle).2.1 =
        ((List.range (generate_response_streaming oracle).2.2).map
          (fun k => nonEmptyChunks (oracle k))).flatten ∧
      (generate_response_streaming oracle).1 =
        String.join (generate_response_streaming oracle).2.1 ∧
      ((∀ k, k < 3 → (oracle k).error ≠ none) →
        (generate_response_streaming oracle).2.2 = 3) := by
  cases h0 : (oracle 0).error with
  | none =>
    refine ⟨?_, ?_, ?_, ?_⟩
    · simp [generate_response_streaming, streamLoop, h0]
    · simp [generate_response_streaming, streamLoop, h0, List.range_succ]
    · simp [generate_response_streaming, streamLoop, h0, string_join_append]
    · intro hk
      exact absurd h0 (hk 0 (by norm_num))
  | some e0 =>
    cases h1 : (oracle 1).error with
    | none =>
      refine ⟨?_, ?_, ?_, ?_⟩
      · simp [generate_response_streaming, streamLoop, h0, h1]
      · simp [generate_response_streaming, streamLoop, h0, h1, List.range_succ]
      · simp [generate_response_streaming, streamLoop, h0, h1, string_join_append]
      · intro hk
        exact absurd h1 (hk 1 (by norm_num))
    | some e1 =>
      cases h2 : (oracle 2).error with
      | none =>
        refine ⟨?_, ?_, ?_, ?_⟩
        · simp [generate_response_streaming, streamLoop, h0, h1, h2]
        · simp [generate_response_streaming, streamLoop, h0, h1, h2, List.range_succ]
        · simp [generate_response_streaming, streamLoop, h0, h1, h2, string_join_append,
            String.append_assoc]
        · intro hk
          simp [generate_response_streaming, streamLoop, h0, h1, h2]
      | some e2 =>
        refine ⟨?_, ?_, ?_, ?_⟩
        · simp [generate_response_streaming, streamLoop, h0, h1, h2]
        · simp [generate_response_streaming, streamLoop, h0, h1, h2, List.range_succ]
        · simp [generate_response_streaming, streamLoop, h0, h1, h2, string_join_append,
            String.append_assoc]
        · intro hk
          simp [generate_response_streaming, streamLoop, h0, h1, h2]

/-- Witness for C2 (amended) at an oracle on which every attempt fails after
one chunk: the retry budget is fully consumed. -/
theorem C2_witness :
    (generate_response_streaming cOracleFailAll).2.2 = 3 :=
  (C2_stream_retry_bound_and_append cOracleFailAll).2.2.2
    (by intro k hk; simp [cOracleFailAll])

end PersonaForge



